import Mathlib

/-!
Shallow embedding of the AI Study Buddy application (src/app.py).

The program is a single-page interactive app: a model-catalog fetcher
(get_available_models), a sidebar that picks an action and a model, and a
click handler that validates the input, resolves a generative model
(catalog entry or a hard-coded fallback list), builds a prompt payload and
issues one generation call, rendering the returned text or an error.

External effects are modelled explicitly: the provider endpoints are an
environment of oracles (listing, model construction, generation), and all
user-visible output plus every outgoing call is recorded in a Trace value.
Images are opaque handles (Nat); exceptions are the error side of Except.
-/

namespace StudyBuddy

/-- A model record as returned by the provider listing endpoint
(genai.list_models): a qualified name and the supported generation
methods. -/
structure ProviderModel where
  name : String
  supported_generation_methods : List String
deriving DecidableEq, Repr

/-- Entry of the catalog built by get_available_models: the qualified name
plus the cleaned display name. -/
structure ModelDescriptor where
  full_name : String
  display_name : String
deriving DecidableEq, Repr

/-- An instantiated generative model handle (genai.GenerativeModel). -/
structure GModel where
  model_name : String
deriving DecidableEq, Repr

/-- One element of the ordered payload passed to generate_content: a text
part or an (opaque) image part. -/
inductive Part where
  | text (s : String)
  | image (img : Nat)
deriving DecidableEq, Repr

/-- The three actions offered by the sidebar radio control. -/
inductive Action where
  | explainConcept
  | generateQuiz
  | makeFlashcards
deriving DecidableEq, Repr

/-- The external provider, as oracles: the result of the listing call, of
constructing a model from a name, and of a generation call. An error value
stands for a raised exception carrying that message. -/
structure Env where
  list_models : Except String (List ProviderModel)
  makeModel : String → Except String GModel
  generate_content : GModel → List Part → Except String String

/-- Observable outcome of one page interaction: error banners, info notes,
warnings, sidebar success notes, the model names passed to the model
constructor, the generation calls issued, the rendered result, and whether
st.stop was reached. -/
structure Trace where
  errors : List String
  infos : List String
  warnings : List String
  sidebar_success : List String
  inst_calls : List String
  gen_calls : List (GModel × List Part)
  rendered : Option String
  stopped : Bool
deriving DecidableEq, Repr

/-- A trace with no effects recorded yet. -/
def emptyTrace : Trace :=
  { errors := [], infos := [], warnings := [], sidebar_success := [],
    inst_calls := [], gen_calls := [], rendered := none, stopped := false }

/-- The loop body of get_available_models: keep models whose supported
generation methods contain generateContent, pairing each name with the
display name obtained by replacing the models/ prefix text. -/
def collectValid : List ProviderModel → List ModelDescriptor
  | [] => []
  | m :: rest =>
    if "generateContent" ∈ m.supported_generation_methods then
      { full_name := m.name, display_name := m.name.replace "models/" "" }
        :: collectValid rest
    else
      collectValid rest

/-- get_available_models: on a successful listing, the filtered catalog and
no error output; on an exception, an empty catalog and the fetch-error
banner. -/
def get_available_models (env : Env) : List ModelDescriptor × List String :=
  match env.list_models with
  | .ok models => (collectValid models, [])
  | .error e => ([], ["Error fetching models: " ++ e])

/-- The hard-coded fallback candidate list model_names_to_try. -/
def model_names_to_try : List String :=
  ["gemini-1.5-flash", "gemini-1.5-pro", "gemini-1.0-pro", "gemini-pro"]

/-- The fallback loop: try each candidate name in order, swallowing
exceptions, returning the names attempted together with the first success
(candidate name and model), if any. -/
def tryModels (env : Env) : List String → List String × Option (String × GModel)
  | [] => ([], none)
  | n :: rest =>
    match env.makeModel n with
    | .ok m => ([n], some (n, m))
    | .error _ =>
      let r := tryModels env rest
      (n :: r.1, r.2)

/-- The prompts dictionary: the fixed instruction string for each action. -/
def prompts : Action → String
  | .explainConcept =>
      "Summarize this content into easy bullet points and explain complex terms simply."
  | .generateQuiz =>
      "Create 5 multiple choice questions with answers based on this content."
  | .makeFlashcards =>
      "Create 5 Question & Answer pairs from this content."

/-- The truncation step: text longer than 10000 characters is cut to its
first 10000 characters, shorter text passes through unchanged. -/
def truncated (t : String) : String :=
  if t.length > 10000 then t.take 10000 else t

/-- Assembly of final_input: the instruction first, then the truncated text
when the text is non-empty, then the image when one was uploaded. -/
def final_input (choice : Action) (text_input : String) (image_input : Option Nat) :
    List Part :=
  let base := [Part.text (prompts choice)]
  let withText := if text_input = "" then base else base ++ [Part.text (truncated text_input)]
  match image_input with
  | some img => withText ++ [Part.image img]
  | none => withText

/-- The static remediation hint shown with every surfaced exception. -/
def hintMsg : String := "Try selecting a different model from the sidebar dropdown."

/-- The missing-input validation banner. -/
def missingInputMsg : String := "Please provide text or an image first."

/-- The banner shown when every fallback candidate fails. -/
def noWorkingModelMsg : String :=
  "Could not find any working model. Please check your API key and permissions."

/-- Outcome of the model-resolution step of the handler: a model together
with the constructor calls made and the sidebar notes emitted, an exception
that escapes to the outer handler, or the halt after every fallback
candidate failed. -/
inductive Resolved where
  | got (m : GModel) (inst : List String) (msgs : List String)
  | exc (e : String) (inst : List String)
  | halted (inst : List String)
deriving DecidableEq, Repr

/-- Model resolution. With a non-empty catalog: find the first entry whose
display name equals the selection (a missing entry raises StopIteration,
whose message is empty) and construct the model from its qualified name,
letting an exception escape. With an empty catalog: run the fallback loop;
the first success is announced in the sidebar, and total failure reports
the error and stops. -/
def resolveModel (env : Env) (available_models : List ModelDescriptor)
    (selected_model : String) : Resolved :=
  if available_models.isEmpty then
    let r := tryModels env model_names_to_try
    match r.2 with
    | some (n, m) => .got m r.1 ["Using model: " ++ n]
    | none => .halted r.1
  else
    match available_models.find? (fun m => m.display_name = selected_model) with
    | none => .exc "" []
    | some md =>
      match env.makeModel md.full_name with
      | .ok m => .got m [md.full_name] []
      | .error e => .exc e [md.full_name]

/-- The Start Processing click handler. Empty text with no image is
rejected inline before anything else. Otherwise the model is resolved;
st.stop after total fallback failure halts, a surfaced exception shows the
verbatim message and the hint, and with a model in hand exactly one
generation call is issued on final_input, rendering the returned text or
surfacing the raised exception. -/
def runHandler (env : Env) (available_models : List ModelDescriptor)
    (selected_model : String) (choice : Action)
    (text_input : String) (image_input : Option Nat) : Trace :=
  if text_input = "" ∧ image_input = none then
    { emptyTrace with errors := [missingInputMsg] }
  else
    match resolveModel env available_models selected_model with
    | .halted inst =>
      { emptyTrace with inst_calls := inst, errors := [noWorkingModelMsg], stopped := true }
    | .exc e inst =>
      { emptyTrace with inst_calls := inst, errors := ["Error: " ++ e], infos := [hintMsg] }
    | .got m inst msgs =>
      match env.generate_content m (final_input choice text_input image_input) with
      | .ok txt =>
        { emptyTrace with
          inst_calls := inst
          sidebar_success := msgs
          gen_calls := [(m, final_input choice text_input image_input)]
          rendered := some txt }
      | .error e =>
        { emptyTrace with
          inst_calls := inst
          sidebar_success := msgs
          gen_calls := [(m, final_input choice text_input image_input)]
          errors := ["Error: " ++ e]
          infos := [hintMsg] }

/-- One full page interaction: fetch the catalog (its fetch error banner is
merged into the trace), fall back to the default selection name and emit
the warning when the catalog is empty, then run the click handler with the
user pick. -/
def runApp (env : Env) (pick : String) (choice : Action)
    (text_input : String) (image_input : Option Nat) : Trace :=
  let fetched := get_available_models env
  let ams := fetched.1
  let selected := if ams.isEmpty then "gemini-pro" else pick
  let t := runHandler env ams selected choice text_input image_input
  { t with
    errors := fetched.2 ++ t.errors
    warnings := (if ams.isEmpty then ["No models found. Using default model name."] else [])
      ++ t.warnings }

/-! Helper lemmas shared by the claim theorems. -/

/-- When every name in the list fails to construct, the fallback loop
attempts all of them and finds no model. -/
theorem tryModels_all_fail (env : Env) (ns : List String)
    (h : ∀ n ∈ ns, ∃ e, env.makeModel n = .error e) :
    tryModels env ns = (ns, none) := by
  induction ns with
  | nil => rfl
  | cons n rest ih =>
    obtain ⟨e, he⟩ := h n (List.mem_cons_self n rest)
    simp [tryModels, he, ih (fun x hx => h x (List.mem_cons_of_mem n hx))]

/-- When every name before n fails and n succeeds, the fallback loop
attempts exactly the names up to and including n and stops at n. -/
theorem tryModels_first_success (env : Env) (pre : List String) (n : String)
    (post : List String) (m : GModel)
    (hpre : ∀ x ∈ pre, ∃ e, env.makeModel x = .error e)
    (hn : env.makeModel n = .ok m) :
    tryModels env (pre ++ n :: post) = (pre ++ [n], some (n, m)) := by
  induction pre with
  | nil => simp [tryModels, hn]
  | cons p rest ih =>
    obtain ⟨e, he⟩ := hpre p (by simp)
    simp [tryModels, he, ih (fun x hx => hpre x (by simp [hx]))]

/-- find? locates the first entry whose display name matches, skipping the
non-matching prefix. -/
theorem find?_first_match (pre : List ModelDescriptor) (md : ModelDescriptor)
    (post : List ModelDescriptor) (sel : String)
    (hmd : md.display_name = sel)
    (hpre : ∀ x ∈ pre, x.display_name ≠ sel) :
    (pre ++ md :: post).find? (fun x => x.display_name = sel) = some md := by
  induction pre with
  | nil => simp [List.find?, hmd]
  | cons p rest ih =>
    have hp : p.display_name ≠ sel := hpre p (by simp)
    simp [List.find?, hp, ih (fun x hx => hpre x (by simp [hx]))]

/-- The collecting loop of get_available_models equals a filter followed by
a map over the listed models. -/
theorem collectValid_eq_filter_map (ms : List ProviderModel) :
    collectValid ms =
      (ms.filter (fun m => decide ("generateContent" ∈ m.supported_generation_methods))).map
        (fun m => { full_name := m.name, display_name := m.name.replace "models/" "" }) := by
  induction ms with
  | nil => rfl
  | cons m rest ih =>
    by_cases h : "generateContent" ∈ m.supported_generation_methods <;>
      simp [collectValid, h, ih]

/-! The claims. -/

/-- C1: when both the text and the image are absent, the handler shows the
missing-input banner and halts with no generation call and no model
construction attempted. -/
theorem missing_input_rejected (env : Env) (ams : List ModelDescriptor)
    (sel : String) (choice : Action) (t : String) (img : Option Nat)
    (ht : t = "") (himg : img = none) :
    (runHandler env ams sel choice t img).errors = [missingInputMsg] ∧
    (runHandler env ams sel choice t img).gen_calls = [] ∧
    (runHandler env ams sel choice t img).inst_calls = [] := by
  subst ht himg
  exact ⟨rfl, rfl, rfl⟩

/-- Environment used by several concrete witnesses: a two-model listing of
which one supports content generation, model construction always succeeds,
and generation returns a fixed text. -/
def sampleEnv : Env :=
  { list_models := .ok
      [{ name := "models/gemini-1.5-pro"
         supported_generation_methods := ["generateContent"] },
       { name := "models/embedding-001"
         supported_generation_methods := ["embedContent"] }]
    makeModel := fun n => .ok { model_name := n }
    generate_content := fun _ _ => .ok "SAMPLE OUTPUT" }

/-- C1 witness at a concrete empty request. -/
theorem missing_input_rejected_witness :
    "" = "" ∧ (none : Option Nat) = none ∧
    ((runHandler sampleEnv [] "gemini-pro" .explainConcept "" none).errors = [missingInputMsg] ∧
     (runHandler sampleEnv [] "gemini-pro" .explainConcept "" none).gen_calls = [] ∧
     (runHandler sampleEnv [] "gemini-pro" .explainConcept "" none).inst_calls = []) :=
  ⟨rfl, rfl, missing_input_rejected sampleEnv [] "gemini-pro" .explainConcept "" none rfl rfl⟩

/-- C2: for text longer than 10000 characters the text part placed into
the payload is exactly the first 10000 characters of the input (as a
character list), so the transmitted text never exceeds 10000 characters. -/
theorem long_text_truncated (t : String) (choice : Action) (img : Option Nat)
    (h : t.length > 10000) :
    truncated t = t.take 10000 ∧
    (truncated t).data = t.data.take 10000 ∧
    (truncated t).length ≤ 10000 ∧
    final_input choice t img =
      [Part.text (prompts choice), Part.text (truncated t)]
        ++ (match img with | some i => [Part.image i] | none => []) := by
  have hne : t ≠ "" := by
    intro he
    rw [he] at h
    simp at h
  have htr : truncated t = t.take 10000 := if_pos h
  refine ⟨htr, ?_, ?_, ?_⟩
  · rw [htr]
    exact String.data_take t 10000
  · rw [htr, String.take_eq, String.mk_length]
    exact List.length_take_le 10000 t.data
  · cases img <;> simp [final_input, hne]

/-- A concrete overlong text: 10001 copies of the letter a. -/
def longText : String := String.mk (List.replicate 10001 'a')

/-- C2 witness at the concrete 10001-character text. -/
theorem long_text_truncated_witness :
    longText.length > 10000 ∧
    (truncated longText = longText.take 10000 ∧
     (truncated longText).data = longText.data.take 10000 ∧
     (truncated longText).length ≤ 10000 ∧
     final_input .explainConcept longText none =
       [Part.text (prompts .explainConcept), Part.text (truncated longText)]) := by
  have hlen : longText.length > 10000 := by
    rw [longText, String.mk_length, List.length_replicate]
    decide
  exact ⟨hlen, long_text_truncated longText .explainConcept none hlen⟩

/-- C3: an accepted request with a resolved model issues exactly one
generation call, whose payload is the instruction for the selected action
followed by the truncated text (when non-empty) and the image (when
present), and renders the returned text unchanged. -/
theorem accepted_single_call (env : Env) (ams : List ModelDescriptor)
    (sel : String) (choice : Action) (t : String) (img : Option Nat)
    (m : GModel) (inst msgs : List String) (r : String)
    (hacc : ¬(t = "" ∧ img = none))
    (hres : resolveModel env ams sel = .got m inst msgs)
    (hgen : env.generate_content m (final_input choice t img) = .ok r) :
    (runHandler env ams sel choice t img).gen_calls = [(m, final_input choice t img)] ∧
    (runHandler env ams sel choice t img).rendered = some r ∧
    final_input choice t img =
      [Part.text (prompts choice)]
        ++ (if t = "" then [] else [Part.text (truncated t)])
        ++ (match img with | some i => [Part.image i] | none => []) := by
  have hrun :
      (runHandler env ams sel choice t img).gen_calls = [(m, final_input choice t img)] ∧
      (runHandler env ams sel choice t img).rendered = some r := by
    unfold runHandler
    rw [if_neg hacc, hres]
    simp [hgen]
  refine ⟨hrun.1, hrun.2, ?_⟩
  by_cases ht : t = "" <;> cases img <;> simp [final_input, ht]

/-- Environment for the end-to-end scenario of C3: a one-model listing and
a generation call returning a fixed explanation text. -/
def c3Env : Env :=
  { list_models := .ok
      [{ name := "models/gemini-1.5-pro"
         supported_generation_methods := ["generateContent"] }]
    makeModel := fun n => .ok { model_name := n }
    generate_content := fun _ _ => .ok "EXPLANATION TEXT" }

/-- The catalog built from c3Env. -/
def c3Models : List ModelDescriptor :=
  [{ full_name := "models/gemini-1.5-pro", display_name := "gemini-1.5-pro" }]

/-- The concrete study text of the end-to-end scenario. -/
def photoText : String := "Photosynthesis converts light into chemical energy"

/-- C3 witness: the end-to-end scenario with the photosynthesis text and
the Explain Concept action makes one call with payload
[explain-instruction, that text] and renders the returned text. -/
theorem accepted_single_call_witness :
    (runHandler c3Env c3Models "gemini-1.5-pro" .explainConcept photoText none).gen_calls
      = [({ model_name := "models/gemini-1.5-pro" },
          [Part.text (prompts .explainConcept), Part.text photoText])] ∧
    (runHandler c3Env c3Models "gemini-1.5-pro" .explainConcept photoText none).rendered
      = some "EXPLANATION TEXT" := by
  have h := accepted_single_call c3Env c3Models "gemini-1.5-pro" .explainConcept photoText none
    { model_name := "models/gemini-1.5-pro" } ["models/gemini-1.5-pro"] [] "EXPLANATION TEXT"
    (by decide) rfl rfl
  refine ⟨h.1.trans ?_, h.2.1⟩
  decide

/-- C4: when the listing call fails, get_available_models reports the
failure and returns the empty catalog; resolution then walks the fixed
candidate list in order and, with every candidate before n failing and n
succeeding, stops at n, uses it, and announces it in the sidebar. -/
theorem listing_failure_fallback (env : Env) (e : String)
    (pre : List String) (n : String) (post : List String) (m : GModel)
    (hfail : env.list_models = .error e)
    (hsplit : model_names_to_try = pre ++ n :: post)
    (hpre : ∀ x ∈ pre, ∃ err, env.makeModel x = .error err)
    (hn : env.makeModel n = .ok m) :
    get_available_models env = ([], ["Error fetching models: " ++ e]) ∧
    resolveModel env [] "gemini-pro" = .got m (pre ++ [n]) ["Using model: " ++ n] ∧
    ∀ pick choice t img, ¬(t = "" ∧ img = none) →
      (runApp env pick choice t img).sidebar_success = ["Using model: " ++ n] := by
  have hga : get_available_models env = ([], ["Error fetching models: " ++ e]) := by
    simp [get_available_models, hfail]
  have hres : resolveModel env [] "gemini-pro" = .got m (pre ++ [n]) ["Using model: " ++ n] := by
    simp [resolveModel, hsplit, tryModels_first_success env pre n post m hpre hn]
  refine ⟨hga, hres, ?_⟩
  intro pick choice t img hacc
  unfold runApp
  rw [hga]
  simp only []
  have : (runHandler env [] "gemini-pro" choice t img).sidebar_success
      = ["Using model: " ++ n] := by
    unfold runHandler
    rw [if_neg hacc, hres]
    cases hg : env.generate_content m (final_input choice t img) <;> simp [hg]
  simpa using this

/-- Environment for the C4 witness: the listing is down, the first
fallback candidate fails, the second succeeds. -/
def c4Env : Env :=
  { list_models := .error "down"
    makeModel := fun n =>
      if n = "gemini-1.5-flash" then .error "quota" else .ok { model_name := n }
    generate_content := fun _ _ => .ok "fine" }

/-- C4 witness: the fetch failure is reported with an empty catalog and
resolution stops at the second candidate and announces it. -/
theorem listing_failure_fallback_witness :
    c4Env.list_models = .error "down" ∧
    (get_available_models c4Env = ([], ["Error fetching models: down"]) ∧
     resolveModel c4Env [] "gemini-pro" =
       .got { model_name := "gemini-1.5-pro" } ["gemini-1.5-flash", "gemini-1.5-pro"]
         ["Using model: gemini-1.5-pro"] ∧
     (runApp c4Env "anything" .generateQuiz "notes" none).sidebar_success
       = ["Using model: gemini-1.5-pro"]) := by
  have h := listing_failure_fallback c4Env "down" ["gemini-1.5-flash"] "gemini-1.5-pro"
    ["gemini-1.0-pro", "gemini-pro"] { model_name := "gemini-1.5-pro" }
    rfl rfl
    (by
      intro x hx
      rw [List.mem_singleton] at hx
      subst hx
      exact ⟨"quota", rfl⟩)
    rfl
  exact ⟨rfl, h.1, h.2.1, h.2.2 "anything" .generateQuiz "notes" none (by decide)⟩

/-- C5: when the catalog is empty and every fallback candidate fails, the
handler reports the no-working-model error, stops, and never issues a
generation call. -/
theorem all_candidates_fail_halts (env : Env) (sel : String) (choice : Action)
    (t : String) (img : Option Nat)
    (hacc : ¬(t = "" ∧ img = none))
    (hall : ∀ x ∈ model_names_to_try, ∃ e, env.makeModel x = .error e) :
    (runHandler env [] sel choice t img).errors = [noWorkingModelMsg] ∧
    (runHandler env [] sel choice t img).stopped = true ∧
    (runHandler env [] sel choice t img).gen_calls = [] := by
  have hres : resolveModel env [] sel = .halted model_names_to_try := by
    simp [resolveModel, tryModels_all_fail env model_names_to_try hall]
  unfold runHandler
  rw [if_neg hacc, hres]
  exact ⟨rfl, rfl, rfl⟩

/-- Environment for the C5 witness: every model construction fails. -/
def c5Env : Env :=
  { list_models := .error "down"
    makeModel := fun _ => .error "nope"
    generate_content := fun _ _ => .ok "unreachable" }

/-- C5 witness at a concrete request where every candidate fails. -/
theorem all_candidates_fail_halts_witness :
    ¬("notes" = "" ∧ (none : Option Nat) = none) ∧
    ((runHandler c5Env [] "gemini-pro" .makeFlashcards "notes" none).errors = [noWorkingModelMsg] ∧
     (runHandler c5Env [] "gemini-pro" .makeFlashcards "notes" none).stopped = true ∧
     (runHandler c5Env [] "gemini-pro" .makeFlashcards "notes" none).gen_calls = []) := by
  refine ⟨by decide, ?_⟩
  exact all_candidates_fail_halts c5Env "gemini-pro" .makeFlashcards "notes" none
    (by decide) (fun x hx => ⟨"nope", rfl⟩)

/-- C6: for the Generate Quiz action the first payload element is exactly
the fixed quiz instruction, whatever the text and image are. -/
theorem quiz_instruction_first (t : String) (img : Option Nat) :
    (final_input .generateQuiz t img).head? =
      some (Part.text
        "Create 5 multiple choice questions with answers based on this content.") := by
  by_cases ht : t = "" <;> cases img <;> simp [final_input, ht, prompts]

/-- C7: on a successful listing the catalog is exactly the listed models
supporting generateContent, in listing order, each paired with the display
name derived from the qualified name, and no fetch error is reported. -/
theorem catalog_filters_listing (env : Env) (ms : List ProviderModel)
    (h : env.list_models = .ok ms) :
    get_available_models env =
      ((ms.filter (fun m => decide ("generateContent" ∈ m.supported_generation_methods))).map
        (fun m => { full_name := m.name, display_name := m.name.replace "models/" "" }),
       []) := by
  simp [get_available_models, h, collectValid_eq_filter_map]

/-- C7 witness on the concrete two-model listing of sampleEnv: only the
generateContent model survives the filter (the display name is kept
symbolic since replace recurses by well-founded recursion). -/
theorem catalog_filters_listing_witness :
    sampleEnv.list_models = .ok
      [{ name := "models/gemini-1.5-pro"
         supported_generation_methods := ["generateContent"] },
       { name := "models/embedding-001"
         supported_generation_methods := ["embedContent"] }] ∧
    get_available_models sampleEnv =
      ([{ full_name := "models/gemini-1.5-pro"
          display_name := "models/gemini-1.5-pro".replace "models/" "" }], []) ∧
    (get_available_models sampleEnv).1.map (fun d => d.full_name)
      = ["models/gemini-1.5-pro"] := by
  have h := catalog_filters_listing sampleEnv
    [{ name := "models/gemini-1.5-pro"
       supported_generation_methods := ["generateContent"] },
     { name := "models/embedding-001"
       supported_generation_methods := ["embedContent"] }]
    rfl
  refine ⟨rfl, h.trans (by simp), ?_⟩
  rw [h]
  simp

/-- Environment for the C8 counterexample: the listing is down, the first
fallback candidate raises, the others construct, generation succeeds. -/
def c8Env : Env :=
  { list_models := .error "service down"
    makeModel := fun n =>
      if n = "gemini-1.5-flash" then .error "quota exceeded"
      else .ok { model_name := n }
    generate_content := fun _ _ => .ok "fine" }

/-- C8 counterexample: an exception raised while constructing the first
fallback candidate is swallowed, the next candidate is used, and the
request succeeds with a rendered result and no surfaced error banner at
all, contradicting the claim that any exception during model construction
fails the request with its message surfaced verbatim. -/
theorem instantiation_exception_swallowed :
    c8Env.makeModel "gemini-1.5-flash" = .error "quota exceeded" ∧
    (runHandler c8Env [] "gemini-pro" .explainConcept "some notes" none).errors = [] ∧
    (runHandler c8Env [] "gemini-pro" .explainConcept "some notes" none).rendered
      = some "fine" :=
  ⟨rfl, rfl, rfl⟩

/-- C8 amended: with a non-empty catalog, an exception during model
construction fails the request with the verbatim message plus the static
hint and renders no result; likewise an exception raised by the generation
call itself on any path. (Exceptions during fallback construction attempts
are instead swallowed and the next candidate is tried.) -/
theorem exception_surfaced_verbatim (env : Env) (ams : List ModelDescriptor)
    (sel : String) (choice : Action) (t : String) (img : Option Nat)
    (hacc : ¬(t = "" ∧ img = none)) :
    (∀ md e, ams.find? (fun x => x.display_name = sel) = some md →
      env.makeModel md.full_name = .error e →
      (runHandler env ams sel choice t img).errors = ["Error: " ++ e] ∧
      (runHandler env ams sel choice t img).infos = [hintMsg] ∧
      (runHandler env ams sel choice t img).rendered = none) ∧
    (∀ m inst msgs e, resolveModel env ams sel = .got m inst msgs →
      env.generate_content m (final_input choice t img) = .error e →
      (runHandler env ams sel choice t img).errors = ["Error: " ++ e] ∧
      (runHandler env ams sel choice t img).infos = [hintMsg] ∧
      (runHandler env ams sel choice t img).rendered = none) := by
  constructor
  · intro md e hfind hmk
    have hne : ams.isEmpty = false := by
      cases ams with
      | nil => simp at hfind
      | cons a l => rfl
    have hres : resolveModel env ams sel = .exc e [md.full_name] := by
      simp [resolveModel, hne, hfind, hmk]
    unfold runHandler
    rw [if_neg hacc, hres]
    exact ⟨rfl, rfl, rfl⟩
  · intro m inst msgs e hres hgen
    unfold runHandler
    rw [if_neg hacc, hres]
    simp [hgen, emptyTrace]

/-- Environment for the C8 witness: the catalog path raises on model
construction. -/
def c8wEnv : Env :=
  { list_models := .ok
      [{ name := "models/gemini-1.5-pro"
         supported_generation_methods := ["generateContent"] }]
    makeModel := fun _ => .error "bad model"
    generate_content := fun _ _ => .ok "unreachable" }

/-- C8 amended witness: a catalog-path construction exception is surfaced
verbatim with the hint and nothing is rendered. -/
theorem exception_surfaced_verbatim_witness :
    ¬("notes" = "" ∧ (some 3 : Option Nat) = none) ∧
    ((runHandler c8wEnv c3Models "gemini-1.5-pro" .makeFlashcards "notes" (some 3)).errors
        = ["Error: bad model"] ∧
     (runHandler c8wEnv c3Models "gemini-1.5-pro" .makeFlashcards "notes" (some 3)).infos
        = [hintMsg] ∧
     (runHandler c8wEnv c3Models "gemini-1.5-pro" .makeFlashcards "notes" (some 3)).rendered
        = none) := by
  have h := exception_surfaced_verbatim c8wEnv c3Models "gemini-1.5-pro" .makeFlashcards
    "notes" (some 3) (by decide)
  exact ⟨by decide,
    h.1 { full_name := "models/gemini-1.5-pro", display_name := "gemini-1.5-pro" }
      "bad model" rfl rfl⟩

/-- C9: with a non-empty catalog the model is constructed from the first
catalog entry whose display name equals the selection; the qualified name
of that entry is the only model-construction call made, and no fallback
announcement appears in the sidebar. -/
theorem catalog_selection_used (env : Env) (pre : List ModelDescriptor)
    (md : ModelDescriptor) (post : List ModelDescriptor) (sel : String) (m : GModel)
    (hmd : md.display_name = sel)
    (hpre : ∀ x ∈ pre, x.display_name ≠ sel)
    (hmk : env.makeModel md.full_name = .ok m) :
    resolveModel env (pre ++ md :: post) sel = .got m [md.full_name] [] ∧
    ∀ choice t img, ¬(t = "" ∧ img = none) →
      (runHandler env (pre ++ md :: post) sel choice t img).inst_calls = [md.full_name] ∧
      (runHandler env (pre ++ md :: post) sel choice t img).sidebar_success = [] := by
  have hne : (pre ++ md :: post).isEmpty = false := by
    simp [List.isEmpty_eq_false]
  have hres : resolveModel env (pre ++ md :: post) sel = .got m [md.full_name] [] := by
    simp [resolveModel, hne, find?_first_match pre md post sel hmd hpre, hmk]
  refine ⟨hres, ?_⟩
  intro choice t img hacc
  unfold runHandler
  rw [if_neg hacc, hres]
  cases hg : env.generate_content m (final_input choice t img) <;> simp [hg, emptyTrace]

/-- Catalog with two entries for the C9 witness: an earlier entry with a
different display name, then the selected one. -/
def c9Models : List ModelDescriptor :=
  [{ full_name := "models/gemini-1.5-flash", display_name := "gemini-1.5-flash" },
   { full_name := "models/gemini-1.5-pro", display_name := "gemini-1.5-pro" }]

/-- C9 witness: the selection names the second entry, which is the first
match; only its qualified name is constructed and the sidebar stays
silent. -/
theorem catalog_selection_used_witness :
    resolveModel sampleEnv c9Models "gemini-1.5-pro" =
      .got { model_name := "models/gemini-1.5-pro" } ["models/gemini-1.5-pro"] [] ∧
    ((runHandler sampleEnv c9Models "gemini-1.5-pro" .generateQuiz "notes" none).inst_calls
        = ["models/gemini-1.5-pro"] ∧
     (runHandler sampleEnv c9Models "gemini-1.5-pro" .generateQuiz "notes" none).sidebar_success
        = []) := by
  have h := catalog_selection_used sampleEnv
    [{ full_name := "models/gemini-1.5-flash", display_name := "gemini-1.5-flash" }]
    { full_name := "models/gemini-1.5-pro", display_name := "gemini-1.5-pro" }
    [] "gemini-1.5-pro" { model_name := "models/gemini-1.5-pro" }
    rfl
    (by
      intro x hx
      rw [List.mem_singleton] at hx
      subst hx
      decide)
    rfl
  exact ⟨h.1, h.2 .generateQuiz "notes" none (by decide)⟩

/-- C10: empty text with an image present is accepted rather than rejected
as missing input, and the payload carries no text part: it is exactly the
instruction followed by the image. -/
theorem image_only_request (env : Env) (ams : List ModelDescriptor)
    (sel : String) (choice : Action) (img : Nat)
    (m : GModel) (inst msgs : List String) (r : String)
    (hres : resolveModel env ams sel = .got m inst msgs)
    (hgen : env.generate_content m (final_input choice "" (some img)) = .ok r) :
    final_input choice "" (some img) = [Part.text (prompts choice), Part.image img] ∧
    (runHandler env ams sel choice "" (some img)).errors = [] ∧
    (runHandler env ams sel choice "" (some img)).gen_calls =
      [(m, [Part.text (prompts choice), Part.image img])] ∧
    (runHandler env ams sel choice "" (some img)).rendered = some r := by
  have hfi : final_input choice "" (some img) = [Part.text (prompts choice), Part.image img] := by
    simp [final_input]
  have hacc : ¬("" = "" ∧ (some img : Option Nat) = none) := by simp
  have hrun :
      (runHandler env ams sel choice "" (some img)).errors = [] ∧
      (runHandler env ams sel choice "" (some img)).gen_calls =
        [(m, final_input choice "" (some img))] ∧
      (runHandler env ams sel choice "" (some img)).rendered = some r := by
    unfold runHandler
    rw [if_neg hacc, hres]
    simp [hgen, emptyTrace]
  exact ⟨hfi, hrun.1, by rw [hrun.2.1, hfi], hrun.2.2⟩

/-- C10 witness: an image-only request through the c3Env catalog is
accepted and transmits [instruction, image]. -/
theorem image_only_request_witness :
    final_input .explainConcept "" (some 42)
      = [Part.text (prompts .explainConcept), Part.image 42] ∧
    (runHandler c3Env c3Models "gemini-1.5-pro" .explainConcept "" (some 42)).errors = [] ∧
    (runHandler c3Env c3Models "gemini-1.5-pro" .explainConcept "" (some 42)).gen_calls =
      [({ model_name := "models/gemini-1.5-pro" },
        [Part.text (prompts .explainConcept), Part.image 42])] ∧
    (runHandler c3Env c3Models "gemini-1.5-pro" .explainConcept "" (some 42)).rendered
      = some "EXPLANATION TEXT" :=
  image_only_request c3Env c3Models "gemini-1.5-pro" .explainConcept 42
    { model_name := "models/gemini-1.5-pro" } ["models/gemini-1.5-pro"] [] "EXPLANATION TEXT"
    rfl rfl

end StudyBuddy
